import Mathlib

/-
Verification of the slot-lease coordinator in
`atomic_reactor/utils/remote_host.py`.

Strings are modelled as `List Char`.  Python's `str.split(sep)` /
`str.join` are reimplemented below (`pySplit`); `datetime.fromisoformat`
(CPython <= 3.10, the stdlib function the code calls) is modelled by
`fromisoformatOk`.
-/

/-- Model of Python's `s.split(sep)` for a one-character separator:
splits at every occurrence of `sep`; `"".split(sep) = [""]`. -/
def pySplit (sep : Char) : List Char → List (List Char)
  | [] => [[]]
  | c :: rest =>
    let r := pySplit sep rest
    if c = sep then [] :: r
    else
      match r with
      | [] => [[c]]
      | p :: ps => (c :: p) :: ps

/-- Numeric value of a decimal digit character. -/
def digitVal (c : Char) : Nat := c.toNat - 48

/-- Value of a two-digit decimal number. -/
def twoDigits (c1 c2 : Char) : Nat := 10 * digitVal c1 + digitVal c2

/-- Gregorian leap-year test, as in CPython's `datetime` module. -/
def isLeap (y : Nat) : Bool := (y % 4 == 0 && y % 100 != 0) || y % 400 == 0

/-- Number of days in a month, as validated by `datetime.date`. -/
def daysInMonth (y m : Nat) : Nat :=
  if m == 2 then (if isLeap y then 29 else 28)
  else if m == 4 || m == 6 || m == 9 || m == 11 then 30
  else 31

/-- Model of CPython's `_parse_isoformat_date` plus the `date`
constructor's range validation: exactly `YYYY-MM-DD`. -/
def parseIsoDate : List Char → Bool
  | [y1, y2, y3, y4, s1, m1, m2, s2, d1, d2] =>
    y1.isDigit && y2.isDigit && y3.isDigit && y4.isDigit && s1 == '-' &&
    m1.isDigit && m2.isDigit && s2 == '-' && d1.isDigit && d2.isDigit &&
    (let y := 1000 * digitVal y1 + 100 * digitVal y2 + 10 * digitVal y3 + digitVal y4
     let m := twoDigits m1 m2
     let d := twoDigits d1 d2
     decide (1 ≤ y) && decide (1 ≤ m) && decide (m ≤ 12) &&
       decide (1 ≤ d) && decide (d ≤ daysInMonth y m))
  | _ => false

/-- Model of CPython's `_parse_hh_mm_ss_ff` plus the `time` constructor's
range validation: `HH`, `HH:MM`, `HH:MM:SS`, optionally followed by a
3- or 6-digit fraction after the seconds. -/
def parseHMS : List Char → Bool
  | [h1, h2] => h1.isDigit && h2.isDigit && decide (twoDigits h1 h2 ≤ 23)
  | [h1, h2, ':', m1, m2] =>
    h1.isDigit && h2.isDigit && m1.isDigit && m2.isDigit &&
    decide (twoDigits h1 h2 ≤ 23) && decide (twoDigits m1 m2 ≤ 59)
  | [h1, h2, ':', m1, m2, ':', s1, s2] =>
    h1.isDigit && h2.isDigit && m1.isDigit && m2.isDigit &&
    s1.isDigit && s2.isDigit &&
    decide (twoDigits h1 h2 ≤ 23) && decide (twoDigits m1 m2 ≤ 59) &&
    decide (twoDigits s1 s2 ≤ 59)
  | [h1, h2, ':', m1, m2, ':', s1, s2, '.', f1, f2, f3] =>
    h1.isDigit && h2.isDigit && m1.isDigit && m2.isDigit &&
    s1.isDigit && s2.isDigit && f1.isDigit && f2.isDigit && f3.isDigit &&
    decide (twoDigits h1 h2 ≤ 23) && decide (twoDigits m1 m2 ≤ 59) &&
    decide (twoDigits s1 s2 ≤ 59)
  | [h1, h2, ':', m1, m2, ':', s1, s2, '.', f1, f2, f3, f4, f5, f6] =>
    h1.isDigit && h2.isDigit && m1.isDigit && m2.isDigit &&
    s1.isDigit && s2.isDigit && f1.isDigit && f2.isDigit && f3.isDigit &&
    f4.isDigit && f5.isDigit && f6.isDigit &&
    decide (twoDigits h1 h2 ≤ 23) && decide (twoDigits m1 m2 ≤ 59) &&
    decide (twoDigits s1 s2 ≤ 59)
  | _ => false

/-- Model of the timezone suffix accepted by CPython's
`_parse_isoformat_time`: the part after the sign must have length 5, 8
or 15 (`HH:MM`, `HH:MM:SS`, `HH:MM:SS.ffffff`) and denote an offset
strictly below 24 hours (validated by `timezone`). -/
def parseTz : List Char → Bool
  | [h1, h2, ':', m1, m2] =>
    h1.isDigit && h2.isDigit && m1.isDigit && m2.isDigit &&
    decide ((twoDigits h1 h2 * 60 + twoDigits m1 m2) * 60 * 1000000 < 86400000000)
  | [h1, h2, ':', m1, m2, ':', s1, s2] =>
    h1.isDigit && h2.isDigit && m1.isDigit && m2.isDigit &&
    s1.isDigit && s2.isDigit &&
    decide (((twoDigits h1 h2 * 60 + twoDigits m1 m2) * 60 + twoDigits s1 s2)
              * 1000000 < 86400000000)
  | [h1, h2, ':', m1, m2, ':', s1, s2, '.', f1, f2, f3, f4, f5, f6] =>
    h1.isDigit && h2.isDigit && m1.isDigit && m2.isDigit &&
    s1.isDigit && s2.isDigit && f1.isDigit && f2.isDigit && f3.isDigit &&
    f4.isDigit && f5.isDigit && f6.isDigit &&
    decide (((twoDigits h1 h2 * 60 + twoDigits m1 m2) * 60 + twoDigits s1 s2)
              * 1000000
            + (((((digitVal f1 * 10 + digitVal f2) * 10 + digitVal f3) * 10
                  + digitVal f4) * 10 + digitVal f5) * 10 + digitVal f6)
            < 86400000000)
  | _ => false

/-- Position of the timezone sign in CPython's `_parse_isoformat_time`:
the first `-` if any, else the first `+` if any. -/
def splitTzPos (t : List Char) : Option Nat :=
  match t.findIdx? (fun c => c == '-') with
  | some i => some i
  | none => t.findIdx? (fun c => c == '+')

/-- Model of CPython's `_parse_isoformat_time`: an optional timezone
suffix is split off at the first sign character, and both parts are
parsed. -/
def parseIsoTimeCP (t : List Char) : Bool :=
  match splitTzPos t with
  | none => parseHMS t
  | some i => parseHMS (t.take i) && parseTz (t.drop (i + 1))

/-- Model of CPython's (<= 3.10) `datetime.fromisoformat` succeeding:
the first 10 characters must form a date; if anything follows, the
character at index 10 is skipped as the separator (it may be *any*
character) and the rest, which must be at least 2 characters long, is
parsed as a time. -/
def fromisoformatOk (s : List Char) : Bool :=
  if s.length == 10 then parseIsoDate s
  else if decide (13 ≤ s.length) then
    parseIsoDate (s.take 10) && parseIsoTimeCP (s.drop 11)
  else false

/-- Model of `datetime.fromisoformat(x)` succeeding for the optional
slot-data field: on `None`, CPython raises `TypeError`, which
`SlotData.is_valid` does not catch; we model the field as simply not
parsing (the distinction is irrelevant to the claims settled here). -/
def fromisoOptOk : Option (List Char) → Bool
  | none => false
  | some t => fromisoformatOk t

/-- Truthiness of an optional string in Python: `None` and `""` are
falsy. -/
def falsy : Option (List Char) → Bool
  | none => true
  | some s => s.isEmpty

/-- Rendering of an optional string inside a Python f-string: `None`
prints as `"None"`. -/
def optStr : Option (List Char) → List Char
  | none => ('N' :: 'o' :: 'n' :: 'e' :: [])
  | some s => s

/-- The slot payload: `prid` (pipeline-run id) and `timestamp`, both
optional, mirroring `SlotData.__init__`. -/
structure SlotData where
  prid : Option (List Char)
  timestamp : Option (List Char)
  deriving DecidableEq, Repr

/-- Model of `SlotData.from_string`: empty (or `None`) input gives the
empty value; otherwise the input is split on `"@"`, the first part
becomes `prid` and the remaining parts are joined back *without* a
separator (`"".join(values[1:])`) to form `timestamp`. -/
def SlotData.from_string (s : List Char) : SlotData :=
  if s = [] then ⟨none, none⟩
  else
    match pySplit '@' s with
    | [] => ⟨none, none⟩
    | p :: rest => ⟨some p, some rest.flatten⟩

/-- Model of `SlotData.is_empty`: `not any((self.prid, self.timestamp))`. -/
def SlotData.is_empty (d : SlotData) : Bool := falsy d.prid && falsy d.timestamp

/-- Model of `SlotData.is_valid`: empty data is valid; otherwise `prid`
must be a string (not `None`) without `"@"` and `timestamp` must parse
with `datetime.fromisoformat`. -/
def SlotData.is_valid (d : SlotData) : Bool :=
  if d.is_empty then true
  else
    match d.prid with
    | none => false
    | some p => if p.contains '@' then false else fromisoOptOk d.timestamp

/-- Model of `SlotData.to_string`: empty data serializes to `""`,
otherwise to `f"{prid}@{timestamp}"`. -/
def SlotData.to_string (d : SlotData) : List Char :=
  if d.is_empty then [] else optStr d.prid ++ '@' :: optStr d.timestamp

/-- Spec-side characters an ISO-8601 datetime string may contain. -/
def isoAllowedChar (c : Char) : Bool :=
  c.isDigit || c == '-' || c == ':' || c == '.' || c == '+' || c == 'T'

/-- A valid ISO-8601 datetime string, per the standard grammar the spec
refers to: a date `YYYY-MM-DD`, optionally followed by the separator
`T` and a time `HH[:MM[:SS[.fff[fff]]]]` with an optional UTC offset.
Unlike CPython's `fromisoformat`, the separator must be the letter `T`. -/
def isIso8601 (s : List Char) : Bool :=
  s.all isoAllowedChar &&
  (parseIsoDate s ||
    (parseIsoDate (s.take 10) && s.get? 10 == some 'T' && parseIsoTimeCP (s.drop 11)
      && decide (13 ≤ s.length)))

/-- Model of `HostSlot.is_free`: the parsed content of the slot file is
empty.  The slot-file content is passed explicitly; every `_data`
access in the source re-reads the file, which under the advisory lock
always yields the same content. -/
def HostSlot.is_free (s : List Char) : Bool := (SlotData.from_string s).is_empty

/-- Model of the `HostSlot.is_valid` property: delegates to
`SlotData.is_valid` on the parsed content. -/
def HostSlot.is_valid (s : List Char) : Bool := (SlotData.from_string s).is_valid

/-- Model of `HostSlot.lock`: given the current slot-file content `s`,
the requesting pipeline-run id `prid` and the current UTC timestamp
`now` (`datetime.utcnow().isoformat()`), returns the boolean result and
the slot-file content afterwards.  A write of the empty string runs
`truncate -s 0`, a non-empty write runs `echo`, either way the file
afterwards holds exactly the written data. -/
def HostSlot.lock (s prid now : List Char) : Bool × List Char :=
  if !(HostSlot.is_free s) && HostSlot.is_valid s then (false, s)
  else (true, (SlotData.mk (some prid) (some now)).to_string)

/-- Model of `HostSlot.is_locked_by`: the parsed `prid` equals the
given one (`None == prid` is false in Python). -/
def HostSlot.is_locked_by (s prid : List Char) : Bool :=
  decide ((SlotData.from_string s).prid = some prid)

/-- Model of `HostSlot.unlock`: free slot is skipped with success;
invalid content is cleared with success; content owned by another prid
is left untouched with failure; otherwise the slot is cleared. -/
def HostSlot.unlock (s prid : List Char) : Bool × List Char :=
  if HostSlot.is_free s then (true, s)
  else if !(HostSlot.is_valid s) then (true, [])
  else if !(HostSlot.is_locked_by s prid) then (false, s)
  else (true, [])

/-- Model of the `backoff.on_exception` combinator with
`jitter=None`: run numbered attempts; on an exception for which
`retryOn` holds, retry while tries remain; any other exception, or
exhaustion, surfaces.  Returns the result together with the number of
attempts actually made.  `retriesLeft` is `max_tries - 1`. -/
def backoffGo {E A : Type} (retryOn : E → Bool) (attempt : Nat → Except E A) :
    Nat → Nat → Except E A × Nat
  | i, retriesLeft =>
    match attempt i with
    | Except.ok a => (Except.ok a, i + 1)
    | Except.error e =>
      match retriesLeft with
      | 0 => (Except.error e, i + 1)
      | Nat.succ r =>
        if retryOn e then backoffGo retryOn attempt (i + 1) r
        else (Except.error e, i + 1)

/-- Model of `@backoff.on_exception(backoff.expo, EXCS, factor=3,
max_tries=maxTries, jitter=None)` applied to a function whose i-th
execution behaves as `attempt i`. -/
def backoffRetry {E A : Type} (retryOn : E → Bool) (maxTries : Nat)
    (attempt : Nat → Except E A) : Except E A × Nat :=
  backoffGo retryOn attempt 0 (maxTries - 1)

/-- Constant `MAX_RETRIES` from the source. -/
def MAX_RETRIES : Nat := 3

/-- Constant `BACKOFF_FACTOR` from the source. -/
def BACKOFF_FACTOR : Nat := 3

/-- The exception kinds derived from `RemoteHostError` in the source. -/
inductive SlotErr
  | lockErr   -- SlotLockError
  | readErr   -- SlotReadError
  | writeErr  -- SlotWriteError
  deriving DecidableEq, Repr

/-- The retry predicate of the decorator on `RemoteHost.lock` and
`RemoteHost.unlock`: `(SlotLockError, SlotReadError, SlotWriteError)`. -/
def retryOnSlotErr : SlotErr → Bool := fun _ => true

/-- Model of the `RemoteHost._locked_slot` context manager around one
attempt: any exception raised while opening the sessions, acquiring the
`flock`, or running the body is re-raised as `SlotLockError`. -/
def lockedSlotWrap (r : Except SlotErr Bool) : Except SlotErr Bool :=
  match r with
  | Except.error _ => Except.error SlotErr.lockErr
  | Except.ok b => Except.ok b

/-- Model of the body of `RemoteHost.lock` (identically
`RemoteHost.unlock`) for a valid slot id: the `_locked_slot` block is
run (its combined outcome for the i-th attempt is `env i`: either the
`HostSlot.lock` result, or the exception the attempt raised), and
`except SlotLockError` turns any raised error into a plain `False`
return. -/
def lockAttemptBody (env : Nat → Except SlotErr Bool) (i : Nat) : Except SlotErr Bool :=
  match lockedSlotWrap (env i) with
  | Except.error SlotErr.lockErr => Except.ok false
  | Except.error e => Except.error e
  | Except.ok b => Except.ok b

/-- Model of the decorated `RemoteHost.lock` for a valid slot id:
`lockAttemptBody` wrapped in the `backoff.on_exception` retry
combinator with `max_tries=3`.  Returns the overall outcome and the
number of attempts made. -/
def RemoteHost.lock (env : Nat → Except SlotErr Bool) : Except SlotErr Bool × Nat :=
  backoffRetry retryOnSlotErr MAX_RETRIES (lockAttemptBody env)

/-- The exceptions relevant to `SSHRetrySession`, modelled from
paramiko's documented exception hierarchy: `AuthenticationException`
and `BadAuthenticationType` are subclasses of `SSHException`;
`NoValidConnectionsError` is listed separately in
`RETRY_ON_SSH_EXCEPTIONS`; `otherError` stands for any exception
outside that hierarchy (e.g. `socket.timeout`, `OSError`). -/
inductive ParamikoExc
  | noValidConnectionsError
  | sshException
  | authenticationException
  | badAuthenticationType
  | otherError
  deriving DecidableEq, Repr

/-- Python's `isinstance(e, SSHException)` over the modelled hierarchy. -/
def isSSHException : ParamikoExc → Bool
  | ParamikoExc.sshException => true
  | ParamikoExc.authenticationException => true
  | ParamikoExc.badAuthenticationType => true
  | _ => false

/-- Python's `isinstance(e, NoValidConnectionsError)`. -/
def isNoValidConnections : ParamikoExc → Bool
  | ParamikoExc.noValidConnectionsError => true
  | _ => false

/-- The retry predicate induced by `RETRY_ON_SSH_EXCEPTIONS =
(NoValidConnectionsError, SSHException)`: exception matching in Python
includes subclasses. -/
def retryOnSSH (e : ParamikoExc) : Bool := isNoValidConnections e || isSSHException e

/-- Model of the decorated `SSHRetrySession.connect`: the i-th
underlying `paramiko.SSHClient.connect` call raises `env i` (or
succeeds on `none`); the decorator retries per `retryOnSSH` with
`max_tries=3`.  Returns the outcome and the number of attempts made. -/
def SSHRetrySession.connect (env : Nat → Option ParamikoExc) :
    Except ParamikoExc Unit × Nat :=
  backoffRetry retryOnSSH MAX_RETRIES
    (fun i =>
      match env i with
      | none => Except.ok ()
      | some e => Except.error e)

/-- Model of the decorated `SSHRetrySession.exec_command`: the i-th
underlying call either raises, or returns the command's
`(stdout, stderr, exit_code)` — a non-zero exit code is an ordinary
return value, not an exception. -/
def SSHRetrySession.exec_command
    (env : Nat → Except ParamikoExc (List Char × List Char × Int)) :
    Except ParamikoExc (List Char × List Char × Int) × Nat :=
  backoffRetry retryOnSSH MAX_RETRIES env

/-- Model of `SSHRetrySession.run`: a single `exec_command` whose
result streams are read and returned together with the exit status. -/
def SSHRetrySession.run
    (env : Nat → Except ParamikoExc (List Char × List Char × Int)) :
    Except ParamikoExc (List Char × List Char × Int) × Nat :=
  SSHRetrySession.exec_command env

/-- The serialization order of two contending `RemoteHost.lock` calls
on the same slot.  The remote `flock` serializes the two critical
sections; `loserBlocked` is true when the later client's `flock`
attempts all end with conflict exit code 42 (so it never enters its
critical section and `RemoteHost.lock` returns false after the caught
`SlotLockError`), and false when it acquires the lock after the winner
released it. -/
inductive Sched
  | firstA (loserBlocked : Bool)
  | firstB (loserBlocked : Bool)
  deriving DecidableEq, Repr

/-- Joint results of two contending `RemoteHost.lock` calls: client A's
boolean result, client B's boolean result, and the final slot-file
content. -/
structure PairOutcome where
  resA : Bool
  resB : Bool
  final : List Char
  deriving DecidableEq, Repr

/-- Two concurrent `RemoteHost.lock(slot, prid_A)` and
`RemoteHost.lock(slot, prid_B)` calls on the same slot starting from a
free (empty) slot file: the advisory `flock` admits the critical
sections one at a time, in the order given by `sched`; each critical
section re-reads the slot file and runs `HostSlot.lock`. `tA`/`tB` are
the respective `utcnow().isoformat()` timestamps. -/
def runTwoLocks (sched : Sched) (pridA pridB tA tB : List Char) : PairOutcome :=
  match sched with
  | Sched.firstA loserBlocked =>
    let ra := HostSlot.lock [] pridA tA
    if loserBlocked then ⟨ra.1, false, ra.2⟩
    else
      let rb := HostSlot.lock ra.2 pridB tB
      ⟨ra.1, rb.1, rb.2⟩
  | Sched.firstB loserBlocked =>
    let rb := HostSlot.lock [] pridB tB
    if loserBlocked then ⟨false, rb.1, rb.2⟩
    else
      let ra := HostSlot.lock rb.2 pridA tA
      ⟨ra.1, rb.1, ra.2⟩

/-- Exceptions that can cross `RemoteHostsPool.lock_resource`'s
interface in the model: anything a per-host operation raises (all
caught), and `ZeroDivisionError` from the sort key
`len(available_slots) / host.slots` (not caught). -/
inductive PyExc
  | hostError
  | zeroDivisionError
  deriving DecidableEq, Repr

/-- The behaviour of one configured remote host as observed by
`RemoteHostsPool.lock_resource`: the `slots` attribute, and the
outcomes of `is_operational`, `available_slots()` and
`lock(slot, prid)` (each may raise). -/
structure HostB where
  slots : Int
  is_operational : Except PyExc Bool
  available_slots : Except PyExc (List Int)
  lockSlot : Int → List Char → Except PyExc Bool

/-- One iteration of the availability loop in `lock_resource`: any
exception from `is_operational` or `available_slots` is caught and the
host skipped; a host that is not operational keeps the initial empty
list and is skipped; a host with an empty list is skipped; otherwise
the (shuffled) slot list is recorded. -/
def hostResource (shuffleSlots : List Int → List Int) (h : HostB) :
    Option (HostB × List Int) :=
  match h.is_operational with
  | Except.error _ => none
  | Except.ok false => none
  | Except.ok true =>
    match h.available_slots with
    | Except.error _ => none
    | Except.ok av => if av.isEmpty then none else some (h, shuffleSlots av)

/-- Stable insertion into a list sorted descending by `key`: the new
element goes after all elements with a key not below its own,
mirroring the stability of Python's `sort` with `reverse=True`. -/
def insertByKeyDesc {α : Type} (key : α → ℚ) (x : α) : List α → List α
  | [] => [x]
  | y :: ys =>
    if key x ≤ key y then y :: insertByKeyDesc key x ys
    else x :: y :: ys

/-- Stable sort, descending by `key`. -/
def sortByKeyDesc {α : Type} (key : α → ℚ) (l : List α) : List α :=
  l.foldl (fun acc x => insertByKeyDesc key x acc) []

/-- Model of `resources.sort(key=lambda x: len(x[1])/x[0].slots,
reverse=True)`: computing a key for a host with `slots == 0` raises
`ZeroDivisionError`, which nothing in `lock_resource` catches;
otherwise the list is sorted descending by the free/total ratio. -/
def sortResources (resources : List (HostB × List Int)) :
    Except PyExc (List (HostB × List Int)) :=
  if resources.any (fun r => r.1.slots == 0) then Except.error PyExc.zeroDivisionError
  else Except.ok (sortByKeyDesc
    (fun r => (r.2.length : ℚ) / (r.1.slots : ℚ)) resources)

/-- Model of `LockedResource`: the lease returned on success. -/
structure LockedResource where
  host : HostB
  host_platform : List Char
  slot : Int
  prid : List Char

/-- The inner slot loop of `lock_resource`: each `host.lock(slot,
prid)` call has its exceptions caught (and treated as not locked); the
first successful lock wins. -/
def tryLockSlots (h : HostB) (prid : List Char) : List Int → Option Int
  | [] => none
  | s :: rest =>
    match h.lockSlot s prid with
    | Except.ok true => some s
    | _ => tryLockSlots h prid rest

/-- The outer resource loop of `lock_resource`. -/
def tryLockResources (platform prid : List Char) :
    List (HostB × List Int) → Option LockedResource
  | [] => none
  | (h, slots) :: rest =>
    match tryLockSlots h prid slots with
    | some s => some ⟨h, platform, s, prid⟩
    | none => tryLockResources platform prid rest

/-- Model of `RemoteHostsPool.lock_resource`: shuffle the hosts, gather
per-host available slots (exceptions caught per host), return `None`
when nothing is available, sort by free/total ratio (which raises on a
zero `slots` attribute) and try to lock slots in order. -/
def RemoteHostsPool.lock_resource (shuffleHosts : List HostB → List HostB)
    (shuffleSlots : List Int → List Int) (hosts : List HostB)
    (platform prid : List Char) : Except PyExc (Option LockedResource) :=
  let resources := (shuffleHosts hosts).filterMap (hostResource shuffleSlots)
  if resources.isEmpty then Except.ok none
  else
    match sortResources resources with
    | Except.error e => Except.error e
    | Except.ok sorted => Except.ok (tryLockResources platform prid sorted)

theorem pySplit_eq_single {sep : Char} : ∀ {l : List Char}, sep ∉ l → pySplit sep l = [l]
  | [], _ => rfl
  | c :: rest, h => by
    have hc : ¬ c = sep := by intro hh; subst hh; exact h (List.mem_cons_self _ _)
    have ih := pySplit_eq_single (l := rest) (fun hm => h (List.mem_cons_of_mem c hm))
    simp [pySplit, hc, ih]

theorem pySplit_append {sep : Char} : ∀ {p : List Char} (t : List Char), sep ∉ p →
    pySplit sep (p ++ sep :: t) = p :: pySplit sep t
  | [], t, _ => by simp [pySplit]
  | c :: p', t, h => by
    have hc : ¬ c = sep := by intro hh; subst hh; exact h (List.mem_cons_self _ _)
    have ih := pySplit_append (p := p') t (fun hm => h (List.mem_cons_of_mem c hm))
    simp [pySplit, hc, ih]

theorem flatten_pySplit (sep : Char) : ∀ (l : List Char),
    (pySplit sep l).flatten = l.filter (fun c => !(c == sep))
  | [] => by simp [pySplit]
  | c :: rest => by
    have ih := flatten_pySplit sep rest
    by_cases hc : c = sep
    · subst hc
      simp [pySplit, ih]
    · rcases hr : pySplit sep rest with _ | ⟨p, ps⟩
      · rw [hr] at ih
        simp at ih
        simp [pySplit, hc, hr]
        exact ih
      · rw [hr] at ih
        simp only [pySplit, hc, hr, if_false, List.flatten_cons]
        simp [hc, ← ih]

theorem pySplit_all_sep {sep : Char} : ∀ {l : List Char}, (∀ c ∈ l, c = sep) →
    pySplit sep l = List.replicate (l.length + 1) []
  | [], _ => rfl
  | c :: rest, h => by
    have hc : c = sep := h c (List.mem_cons_self c rest)
    have ih := pySplit_all_sep (l := rest) (fun x hx => h x (List.mem_cons_of_mem c hx))
    simp [pySplit, hc, ih, List.replicate_succ]

theorem flatten_replicate_nil : ∀ (n : Nat), (List.replicate n ([] : List Char)).flatten = []
  | 0 => rfl
  | n + 1 => by simp [List.replicate_succ, flatten_replicate_nil n]

/-- Parsing a string that consists of a prid part without `"@"`, one
`"@"`, and an arbitrary remainder: the remainder loses any further
`"@"` characters, since `"".join` re-joins the split parts without a
separator. -/
theorem SlotData.from_string_split {p : List Char} (t : List Char) (hp : '@' ∉ p) :
    SlotData.from_string (p ++ '@' :: t) =
      ⟨some p, some (t.filter (fun c => !(c == '@')))⟩ := by
  have hne : ¬ (p ++ '@' :: t = []) := by simp
  unfold SlotData.from_string
  rw [if_neg hne, pySplit_append t hp]
  simp [flatten_pySplit]

/-- Round-trip of parsing when neither part contains `"@"`. -/
theorem SlotData.from_string_roundtrip {p t : List Char} (hp : '@' ∉ p) (ht : '@' ∉ t) :
    SlotData.from_string (p ++ '@' :: t) = ⟨some p, some t⟩ := by
  rw [SlotData.from_string_split t hp]
  have hf : t.filter (fun c => !(c == '@')) = t := by
    rw [List.filter_eq_self]
    intro a ha
    have hne : ¬ a = '@' := fun hh => ht (hh ▸ ha)
    simp [hne]
  rw [hf]

theorem isIso8601_no_at {t : List Char} (h : isIso8601 t = true) : '@' ∉ t := by
  intro hm
  unfold isIso8601 at h
  rw [Bool.and_eq_true] at h
  have hall := h.1
  rw [List.all_eq_true] at hall
  exact absurd (hall '@' hm) (by decide)

theorem fromisoformatOk_ne_nil {t : List Char} (h : fromisoformatOk t = true) : t ≠ [] := by
  intro hn
  subst hn
  exact absurd h (by decide)

theorem SlotData.to_string_mk {p t : List Char} (h : p ≠ [] ∨ t ≠ []) :
    (SlotData.mk (some p) (some t)).to_string = p ++ '@' :: t := by
  unfold SlotData.to_string
  have he : (SlotData.mk (some p) (some t)).is_empty = false := by
    rcases h with h | h <;> simp [SlotData.is_empty, falsy, List.isEmpty_iff, h]
  rw [he]
  simp [optStr]

/-- C4 counterexample: the slot content `"@2022-01-01"` parses to a
value whose prid is the empty string and whose timestamp is present,
yet `SlotData.is_valid` is true — the code only checks
`isinstance(prid, str)` and `"@" not in prid`, never that `prid` is
non-empty, so the claimed equivalence (and the clause that an
empty-prid value with a timestamp is invalid) fails. -/
theorem C4_counterexample :
    SlotData.from_string ("@2022-01-01".data) = ⟨some [], some ("2022-01-01".data)⟩ ∧
    (SlotData.from_string ("@2022-01-01".data)).is_valid = true := by
  decide

/-- C4 amended: `SlotData.is_valid` is true iff the value is empty, OR
prid is a string — possibly empty — not containing `"@"` and the
timestamp is a string accepted by `datetime.fromisoformat` (a `None`
timestamp never qualifies). -/
theorem C4_amended_valid_iff (d : SlotData) :
    d.is_valid = true ↔
      (d.is_empty = true ∨
        ∃ p t, d.prid = some p ∧ d.timestamp = some t ∧
          p.contains '@' = false ∧ fromisoformatOk t = true) := by
  rcases d with ⟨op, ot⟩
  by_cases he : SlotData.is_empty ⟨op, ot⟩ = true
  · simp [SlotData.is_valid, he]
  · rw [Bool.not_eq_true] at he
    rcases op with _ | p
    · simp [SlotData.is_valid, he]
    · rcases ot with _ | t
      · by_cases hc : p.contains '@' = true <;>
          simp [SlotData.is_valid, he, hc, fromisoOptOk]
      · by_cases hc : p.contains '@' = true <;>
          simp [SlotData.is_valid, he, hc, fromisoOptOk]

/-- C5: serialization round-trip.  For every `SlotData` with a
non-empty prid not containing `"@"` and a valid ISO-8601 timestamp,
`from_string (to_string x) = x`; the empty value serializes to `""`
and `""` parses to the empty value. -/
theorem C5_roundtrip (p t : List Char) (hp : p ≠ []) (hpa : '@' ∉ p)
    (ht : isIso8601 t = true) :
    SlotData.from_string ((SlotData.mk (some p) (some t)).to_string) =
      SlotData.mk (some p) (some t) ∧
    (SlotData.mk none none).to_string = [] ∧
    SlotData.from_string [] = SlotData.mk none none := by
  refine ⟨?_, by decide, by decide⟩
  rw [SlotData.to_string_mk (Or.inl hp)]
  exact SlotData.from_string_roundtrip hpa (isIso8601_no_at ht)

theorem C5_witness :
    SlotData.from_string
        ((SlotData.mk (some ("pr123".data)) (some ("2022-02-15T10:22:33.234234".data))).to_string) =
      SlotData.mk (some ("pr123".data)) (some ("2022-02-15T10:22:33.234234".data)) :=
  (C5_roundtrip ("pr123".data) ("2022-02-15T10:22:33.234234".data)
    (by decide) (by decide) (by decide)).1

/-- C6 counterexample: `from_string "a@b@c"` yields timestamp `"bc"`,
not `"b@c"` — `"".join(values[1:])` drops the `"@"` separators instead
of joining them back. -/
theorem C6_counterexample :
    SlotData.from_string ("a@b@c".data) = ⟨some ("a".data), some ("bc".data)⟩ ∧
    ¬ (SlotData.from_string ("a@b@c".data)).timestamp = some ("b@c".data) := by
  decide

/-- C6 amended: for a non-empty input consisting of a `"@"`-free part
`p`, one `"@"`, and a remainder `t`, the part before the first `"@"`
becomes prid and the remainder with every further `"@"` *removed*
(not rejoined) becomes timestamp. -/
theorem C6_amended_split (p t : List Char) (hp : '@' ∉ p) :
    SlotData.from_string (p ++ '@' :: t) =
      ⟨some p, some (t.filter (fun c => !(c == '@')))⟩ :=
  SlotData.from_string_split t hp

theorem C6_witness :
    SlotData.from_string (("a".data) ++ '@' :: ("b@c".data)) =
      ⟨some ("a".data), some (("b@c".data).filter (fun c => !(c == '@')))⟩ :=
  C6_amended_split ("a".data) ("b@c".data) (by decide)

/-- C10: a slot-file content consisting only of `"@"` characters parses
to an empty value (`split` yields only empty fragments and the join of
the tail is empty), so the slot is reported free and can be locked. -/
theorem C10_all_at_is_free (s prid now : List Char) (h : ∀ c ∈ s, c = '@') :
    (SlotData.from_string s).is_empty = true ∧
    HostSlot.is_free s = true ∧
    (HostSlot.lock s prid now).1 = true := by
  have hd : (SlotData.from_string s).is_empty = true := by
    by_cases hs : s = []
    · subst hs; decide
    · unfold SlotData.from_string
      rw [if_neg hs, pySplit_all_sep h]
      rcases s with _ | ⟨c, rest⟩
      · exact absurd rfl hs
      · rw [List.length_cons, List.replicate_succ]
        simp [flatten_replicate_nil, SlotData.is_empty, falsy]
  refine ⟨hd, hd, ?_⟩
  unfold HostSlot.lock HostSlot.is_free
  simp [hd]

theorem C10_witness :
    (SlotData.from_string ("@@".data)).is_empty = true ∧
    HostSlot.is_free ("@@".data) = true ∧
    (HostSlot.lock ("@@".data) ("pr123".data) ("2022-01-01T00:00:00".data)).1 = true :=
  C10_all_at_is_free ("@@".data) ("pr123".data) ("2022-01-01T00:00:00".data) (by decide)

/-- C2: `HostSlot.lock` postcondition.  On a valid, non-empty payload
(occupied by anyone, the requester included) it refuses and leaves the
content unchanged; on an empty or invalid payload it writes
`prid@now` and succeeds. -/
theorem C2_lock_post (s prid now : List Char) (hnow : now ≠ []) :
    ((SlotData.from_string s).is_valid = true → (SlotData.from_string s).is_empty = false →
      HostSlot.lock s prid now = (false, s)) ∧
    ((SlotData.from_string s).is_empty = true ∨ (SlotData.from_string s).is_valid = false →
      HostSlot.lock s prid now = (true, prid ++ '@' :: now)) := by
  constructor
  · intro hv he
    unfold HostSlot.lock HostSlot.is_free HostSlot.is_valid
    simp [he, hv]
  · intro h
    unfold HostSlot.lock HostSlot.is_free HostSlot.is_valid
    have hcond : (!(SlotData.from_string s).is_empty && (SlotData.from_string s).is_valid)
        = false := by
      rcases h with h | h <;> simp [h]
    rw [hcond]
    simp [SlotData.to_string_mk (Or.inr hnow)]

theorem C2_witness :
    HostSlot.lock [] ("pr123".data) ("2022-01-01T00:00:00".data) =
      (true, ("pr123".data) ++ '@' :: ("2022-01-01T00:00:00".data)) :=
  (C2_lock_post [] ("pr123".data) ("2022-01-01T00:00:00".data) (by decide)).2
    (Or.inl (by decide))

/-- C3: `HostSlot.unlock` postcondition.  A free slot is skipped with
success and no write; invalid content is cleared with success; a valid
payload owned by a different prid is refused and left untouched; the
owner's payload is cleared with success. -/
theorem C3_unlock_post (s prid : List Char) :
    ((SlotData.from_string s).is_empty = true → HostSlot.unlock s prid = (true, s)) ∧
    ((SlotData.from_string s).is_empty = false → (SlotData.from_string s).is_valid = false →
      HostSlot.unlock s prid = (true, [])) ∧
    (∀ p, (SlotData.from_string s).is_empty = false →
      (SlotData.from_string s).is_valid = true →
      (SlotData.from_string s).prid = some p → ¬ p = prid →
      HostSlot.unlock s prid = (false, s)) ∧
    ((SlotData.from_string s).is_empty = false → (SlotData.from_string s).is_valid = true →
      (SlotData.from_string s).prid = some prid → HostSlot.unlock s prid = (true, [])) := by
  refine ⟨?_, ?_, ?_, ?_⟩
  · intro he
    unfold HostSlot.unlock HostSlot.is_free
    simp [he]
  · intro he hv
    unfold HostSlot.unlock HostSlot.is_free HostSlot.is_valid
    simp [he, hv]
  · intro p he hv hp hne
    unfold HostSlot.unlock HostSlot.is_free HostSlot.is_valid HostSlot.is_locked_by
    simp [he, hv, hp, hne]
  · intro he hv hp
    unfold HostSlot.unlock HostSlot.is_free HostSlot.is_valid HostSlot.is_locked_by
    simp [he, hv, hp]

theorem C3_witness :
    HostSlot.unlock ("abc@2022-01-01".data) ("xyz".data) =
      (false, ("abc@2022-01-01".data)) :=
  (C3_unlock_post ("abc@2022-01-01".data) ("xyz".data)).2.2.1 ("abc".data)
    (by decide) (by decide) (by decide) (by decide)

theorem HostSlot.lock_free {prid t : List Char} (ht : t ≠ []) :
    HostSlot.lock [] prid t = (true, prid ++ '@' :: t) := by
  unfold HostSlot.lock HostSlot.is_free
  have h0 : (SlotData.from_string []).is_empty = true := by decide
  rw [h0]
  simp [SlotData.to_string_mk (Or.inr ht)]

theorem HostSlot.lock_occupied {p t : List Char} (prid' t' : List Char)
    (hp : '@' ∉ p) (ht : '@' ∉ t) (hiso : fromisoformatOk t = true) :
    HostSlot.lock (p ++ '@' :: t) prid' t' = (false, p ++ '@' :: t) := by
  unfold HostSlot.lock HostSlot.is_free HostSlot.is_valid
  rw [SlotData.from_string_roundtrip hp ht]
  have htne : t ≠ [] := fromisoformatOk_ne_nil hiso
  have hcp : p.contains '@' = false := by simp [hp]
  have he : (SlotData.mk (some p) (some t)).is_empty = false := by
    simp [SlotData.is_empty, falsy, List.isEmpty_iff, htne]
  have hv : (SlotData.mk (some p) (some t)).is_valid = true := by
    simp [SlotData.is_valid, he, hcp, fromisoOptOk, hiso, hp]
  simp [he, hv]

/-- C1: two concurrent `RemoteHost.lock` calls on the same slot
starting free, with well-formed prids (no `"@"`) and
`utcnow().isoformat()` timestamps.  The remote `flock` admits the
critical sections in some order (`sched`); in every schedule exactly
one call returns true, and the final slot-file content is the winner's
`prid@timestamp` payload. -/
theorem C1_mutual_exclusion (sched : Sched) (pridA pridB tA tB : List Char)
    (hA : '@' ∉ pridA) (hB : '@' ∉ pridB)
    (hTA : fromisoformatOk tA = true) (hTB : fromisoformatOk tB = true)
    (hTAa : '@' ∉ tA) (hTBa : '@' ∉ tB) :
    ¬ (runTwoLocks sched pridA pridB tA tB).resA = (runTwoLocks sched pridA pridB tA tB).resB ∧
    ((runTwoLocks sched pridA pridB tA tB).resA = true →
      (runTwoLocks sched pridA pridB tA tB).final = pridA ++ '@' :: tA) ∧
    ((runTwoLocks sched pridA pridB tA tB).resB = true →
      (runTwoLocks sched pridA pridB tA tB).final = pridB ++ '@' :: tB) := by
  have hta := fromisoformatOk_ne_nil hTA
  have htb := fromisoformatOk_ne_nil hTB
  rcases sched with bl | bl <;> rcases bl <;>
    simp [runTwoLocks, HostSlot.lock_free hta, HostSlot.lock_free htb,
      HostSlot.lock_occupied pridB tB hA hTAa hTA,
      HostSlot.lock_occupied pridA tA hB hTBa hTB]

theorem C1_witness :
    ¬ (runTwoLocks (Sched.firstA false) ("prA".data) ("prB".data)
        ("2022-01-01T00:00:00".data) ("2022-01-02T00:00:00".data)).resA =
      (runTwoLocks (Sched.firstA false) ("prA".data) ("prB".data)
        ("2022-01-01T00:00:00".data) ("2022-01-02T00:00:00".data)).resB :=
  (C1_mutual_exclusion (Sched.firstA false) ("prA".data) ("prB".data)
    ("2022-01-01T00:00:00".data) ("2022-01-02T00:00:00".data)
    (by decide) (by decide) (by decide) (by decide) (by decide) (by decide)).1

/-- C7: evaluation of `RemoteHost.lock` when every attempt's critical
path fails.  `_locked_slot` re-raises every exception — including
`SlotReadError`/`SlotWriteError` from the with-body — as
`SlotLockError`, and the `except SlotLockError` inside the decorated
function body catches it and returns `False`.  The attempt therefore
never raises, so the `backoff.on_exception` decorator on
`RemoteHost.lock`/`RemoteHost.unlock` never re-attempts: one failed
attempt yields `False` immediately, not three attempts and a surfaced
error. -/
theorem C7_no_retry_at_lock_layer :
    RemoteHost.lock (fun _ => Except.error SlotErr.readErr) = (Except.ok false, 1) ∧
    RemoteHost.lock (fun _ => Except.error SlotErr.writeErr) = (Except.ok false, 1) ∧
    RemoteHost.lock (fun _ => Except.error SlotErr.lockErr) = (Except.ok false, 1) ∧
    (∀ b : Bool, RemoteHost.lock (fun _ => Except.ok b) = (Except.ok b, 1)) :=
  ⟨rfl, rfl, rfl, fun _ => rfl⟩

/-- C8 counterexample: a `connect` that keeps raising
`AuthenticationException` is attempted 3 times — paramiko's
`AuthenticationException` is a subclass of `SSHException`, which is in
`RETRY_ON_SSH_EXCEPTIONS`, so authentication failures *are* retried,
contrary to the claim. -/
theorem C8_counterexample :
    isSSHException ParamikoExc.authenticationException = true ∧
    (SSHRetrySession.connect (fun _ => some ParamikoExc.authenticationException)).2 = 3 :=
  ⟨rfl, rfl⟩

/-- C8 amended: `connect` and `exec_command` are retried (up to 3
attempts, deterministic exponential backoff, no jitter) exactly on
`NoValidConnectionsError` and `SSHException` — *including* its
subclasses, so authentication failures are retried too; exceptions
outside that hierarchy are surfaced after a single attempt, and a
command that merely exits non-zero is an ordinary return value, so no
retry occurs for it. -/
theorem C8_amended_retry (e : ParamikoExc) :
    (retryOnSSH e = true →
      SSHRetrySession.connect (fun _ => some e) = (Except.error e, 3)) ∧
    (retryOnSSH e = false →
      SSHRetrySession.connect (fun _ => some e) = (Except.error e, 1)) ∧
    (∀ out err code, SSHRetrySession.run (fun _ => Except.ok (out, err, code)) =
      (Except.ok (out, err, code), 1)) := by
  refine ⟨?_, ?_, fun out err code => rfl⟩
  · intro h
    rcases e with _ | _ | _ | _ | _
    · rfl
    · rfl
    · rfl
    · rfl
    · exact absurd h (by decide)
  · intro h
    rcases e with _ | _ | _ | _ | _
    · exact absurd h (by decide)
    · exact absurd h (by decide)
    · exact absurd h (by decide)
    · exact absurd h (by decide)
    · rfl

theorem C8_witness :
    SSHRetrySession.connect (fun _ => some ParamikoExc.sshException) =
      (Except.error ParamikoExc.sshException, 3) ∧
    SSHRetrySession.connect (fun _ => some ParamikoExc.otherError) =
      (Except.error ParamikoExc.otherError, 1) :=
  ⟨(C8_amended_retry ParamikoExc.sshException).1 (by decide),
   (C8_amended_retry ParamikoExc.otherError).2.1 (by decide)⟩

/-- C9 counterexample: with a host whose `slots` attribute is 0 and
whose `available_slots` reports a non-empty list, the sort key
`len(available_slots) / host.slots` raises `ZeroDivisionError` outside
every `try` block, so `lock_resource` propagates an exception. -/
theorem C9_counterexample :
    RemoteHostsPool.lock_resource id id
      [⟨0, Except.ok true, Except.ok [0], fun _ _ => Except.ok false⟩] [] [] =
      Except.error PyExc.zeroDivisionError :=
  rfl

theorem hostResource_some {S : List Int → List Int} {h : HostB} {r : HostB × List Int}
    (hr : hostResource S h = some r) :
    r.1 = h ∧ ∃ av, h.available_slots = Except.ok av ∧ ¬ av = [] ∧ r.2 = S av := by
  unfold hostResource at hr
  rcases ho : h.is_operational with e | b
  · rw [ho] at hr; cases hr
  · rw [ho] at hr
    rcases b
    · cases hr
    · rcases ha : h.available_slots with e | av
      · rw [ha] at hr; cases hr
      · rw [ha] at hr
        cases hav : av.isEmpty with
        | true => simp [hav] at hr
        | false =>
          simp [hav] at hr
          subst hr
          refine ⟨rfl, av, rfl, ?_, rfl⟩
          intro hn
          subst hn
          simp at hav

/-- C9 amended: `lock_resource` returns a lease or `None` and never
propagates an exception, for every host list, prid and behaviour of
the per-host operations in which a host reporting a *non-empty*
available-slot list has a non-zero `slots` attribute (as
`RemoteHost.available_slots`, which only returns ids in
`range(slots)`, always guarantees); and when every host reports an
empty list it returns `None`. -/
theorem C9_amended_total (shuffleHosts : List HostB → List HostB)
    (shuffleSlots : List Int → List Int) (hosts : List HostB) (platform prid : List Char)
    (hperm : ∀ l, (shuffleHosts l).Perm l)
    (hsafe : ∀ h ∈ hosts, ∀ l, h.available_slots = Except.ok l → ¬ l = [] →
      ¬ h.slots = 0) :
    (∃ r, RemoteHostsPool.lock_resource shuffleHosts shuffleSlots hosts platform prid =
      Except.ok r) ∧
    ((∀ h ∈ hosts, h.available_slots = Except.ok []) →
      RemoteHostsPool.lock_resource shuffleHosts shuffleSlots hosts platform prid =
        Except.ok none) := by
  constructor
  · unfold RemoteHostsPool.lock_resource
    by_cases hemp :
        ((shuffleHosts hosts).filterMap (hostResource shuffleSlots)).isEmpty = true
    · rw [if_pos hemp]
      exact ⟨none, rfl⟩
    · rw [if_neg hemp]
      have hany : ((shuffleHosts hosts).filterMap (hostResource shuffleSlots)).any
          (fun r => r.1.slots == 0) = false := by
        rw [List.any_eq_false]
        intro r hrmem
        rw [List.mem_filterMap] at hrmem
        obtain ⟨a, hamem, hfa⟩ := hrmem
        obtain ⟨hr1, av, hav, havne, _⟩ := hostResource_some hfa
        have hain : a ∈ hosts := (hperm hosts).mem_iff.mp hamem
        have hz := hsafe a hain av hav havne
        rw [hr1]
        simpa using hz
      unfold sortResources
      rw [hany]
      exact ⟨_, rfl⟩
  · intro hall
    unfold RemoteHostsPool.lock_resource
    have hres0 : (shuffleHosts hosts).filterMap (hostResource shuffleSlots) = [] := by
      rw [List.filterMap_eq_nil_iff]
      intro a hamem
      have hain : a ∈ hosts := (hperm hosts).mem_iff.mp hamem
      have hav := hall a hain
      unfold hostResource
      rcases ho : a.is_operational with e | b
      · rfl
      · rcases b
        · rfl
        · rw [hav]
          rfl
    rw [hres0]
    rfl

theorem C9_witness :
    RemoteHostsPool.lock_resource id id
      [⟨1, Except.ok true, Except.ok [], fun _ _ => Except.ok false⟩] [] [] =
      Except.ok none :=
  (C9_amended_total id id
    [⟨1, Except.ok true, Except.ok [], fun _ _ => Except.ok false⟩] [] []
    (fun l => List.Perm.refl l)
    (by
      intro h hh l hal hne
      rw [List.mem_singleton] at hh
      subst hh
      simp at hal
      exact absurd hal hne)).2
    (by
      intro h hh
      rw [List.mem_singleton] at hh
      subst hh
      rfl)
